import Mathlib

/-!
Verification development for the ComicAI repository.

We give a shallow embedding of the pure core of the repository:
`src/utils.py` (input validation, story splitting, prompt creation),
`src/llm_handler.py` (panel-response parsing and the fallback panel
generation), and `src/image_generator.py` / `src/local_image_generator.py`
(prompt enhancement, image post-processing, placeholder creation, panel
generation and the panel compositor).  Network calls and the PIL library
are modelled by oracles and an abstract raster-image record; everything
else is translated statement by statement from the Python source.
-/

namespace ComicAI

/-! ## Python string primitives (character-list semantics) -/

/-- ASCII whitespace recognised by Python's `str.split()` / `str.strip()`:
space, tab, newline, carriage return, vertical tab, form feed. -/
def isPySpace (c : Char) : Bool :=
  c = ' ' || c = '\t' || c = '\n' || c = '\r' || c = Char.ofNat 0x0B || c = Char.ofNat 0x0C

/-- Worker for `str.split()` (no separator): accumulate the current word
(reversed) and cut at whitespace, discarding empty words. -/
def pySplitAux : List Char → List Char → List (List Char)
  | [], acc => if acc = [] then [] else [acc.reverse]
  | c :: cs, acc =>
    if isPySpace c then
      if acc = [] then pySplitAux cs [] else acc.reverse :: pySplitAux cs []
    else pySplitAux cs (c :: acc)

/-- Python `story_text.split()`: split on runs of whitespace, no empty words. -/
def pySplit (s : String) : List String :=
  (pySplitAux s.data []).map String.mk

/-- Python `sep.join(parts)`. -/
def joinSep (sep : String) : List String → String
  | [] => ""
  | [x] => x
  | x :: y :: xs => x ++ sep ++ joinSep sep (y :: xs)

/-- Python `text[:k]` (character based). -/
def pyTruncate (s : String) (k : Nat) : String :=
  String.mk (s.data.take k)

/-- Python `text.strip()`: drop leading and trailing whitespace. -/
def pyStrip (s : String) : String :=
  String.mk (((s.data.dropWhile isPySpace).reverse.dropWhile isPySpace).reverse)

/-- Worker for `text.split('\n')`: keeps empty lines, as Python does. -/
def splitLinesAux : List Char → List Char → List (List Char)
  | [], acc => [acc.reverse]
  | c :: cs, acc =>
    if c = '\n' then acc.reverse :: splitLinesAux cs [] else splitLinesAux cs (c :: acc)

/-- Python `text.split('\n')`. -/
def pySplitLines (s : String) : List String :=
  (splitLinesAux s.data []).map String.mk

/-- Python `text.split(':', 1)[1]` when `':' in text`: everything after the
first colon (and `[]` when there is none; that case is never reached). -/
def afterFirstColon : List Char → List Char
  | [] => []
  | c :: cs => if c = ':' then cs else afterFirstColon cs

/-- Python `hay.startswith(pre)` on character lists. -/
def listStartsWith : List Char → List Char → Bool
  | _, [] => true
  | [], _ :: _ => false
  | c :: cs, p :: ps => c = p && listStartsWith cs ps

/-- Python slice `xs[start:stop]` for `0 ≤ start, stop` (indices clamp). -/
def sliceList (xs : List α) (start stop : Nat) : List α :=
  (xs.take stop).drop start

/-- Worker for Python `needle in hay`: `needle` occurs as a contiguous
substring at some position. -/
def hasSubList : List Char → List Char → Bool
  | [], needle => listStartsWith [] needle
  | c :: cs, needle => listStartsWith (c :: cs) needle || hasSubList cs needle

/-- Python `needle in hay` (contiguous substring test). -/
def strContains (hay needle : String) : Bool :=
  hasSubList hay.data needle.data

/-! ## `src/utils.py` -/

/-- Embeds `utils.validate_story_input` (src/src/utils.py:66-85), translated check
by check: empty/whitespace-only, stripped length `< 10`, raw length `> 1000`. -/
def validate_story_input (story_text : String) : Bool × String :=
  if story_text = "" ∨ pyStrip story_text = "" then
    (false, "Please enter a story or idea.")
  else if (pyStrip story_text).length < 10 then
    (false, "Story must be at least 10 characters long.")
  else if 1000 < story_text.length then
    (false, "Story is too long. Please keep it under 1000 characters.")
  else
    (true, "")

/-- The word spans computed by the loop of `utils.split_story_into_panels`
(src/src/utils.py:100-108) and by `LLMHandler._fallback_panel_generation`
(src/src/llm_handler.py:204-213): `words_per_panel = len(words) // num_panels`;
panel `i` takes `words[start:start+wpp]`, the last takes `words[start:len]`. -/
def split_story_spans (words : List α) (num_panels : Nat) : List (List α) :=
  let wpp := words.length / num_panels
  (List.range num_panels).map fun i =>
    sliceList words (i * wpp) (if i < num_panels - 1 then i * wpp + wpp else words.length)

/-- Embeds `utils.split_story_into_panels` (src/src/utils.py:88-110): split the story
into words, slice into spans, `" ".join` each span. -/
def split_story_into_panels (story_text : String) (num_panels : Nat) : List String :=
  (split_story_spans (pySplit story_text) num_panels).map (joinSep " ")

/-- The `style_prompts` table of `utils.create_image_prompt`
(src/src/utils.py:124-131), with the `.get(style, style_prompts["comic"])`
default. -/
def style_prompts (style : String) : String :=
  if style = "comic" then "comic book style, vibrant colors, clear lines"
  else if style = "realistic" then "photorealistic, detailed, natural lighting"
  else if style = "cartoon" then "cartoon style, simple shapes, bright colors"
  else if style = "anime" then "anime style, expressive characters, detailed backgrounds"
  else "comic book style, vibrant colors, clear lines"

/-- Embeds `utils.create_image_prompt` (src/src/utils.py:113-134):
`f"{panel_description}, {style_desc}, high quality, clear composition"`. -/
def create_image_prompt (panel_description : String) (style : String) : String :=
  panel_description ++ ", " ++ style_prompts style ++ ", high quality, clear composition"

/-! ## `src/llm_handler.py` -/

/-- One iteration of the scanning loop of `LLMHandler._parse_panel_response`
(src/src/llm_handler.py:177-183): strip the line; accept it when it starts
with `Panel`, contains a colon, and the stripped text after the first colon
is non-empty; the accepted value is that stripped description. -/
def parseLine (line : String) : Option String :=
  let l := pyStrip line
  if listStartsWith l.data "Panel".data ∧ l.data.contains ':' then
    let description := pyStrip (String.mk (afterFirstColon l.data))
    if description = "" then none else some description
  else none

/-- Embeds `k` iterations of the padding loop
`while len(panels) < num_panels: panels.append(f"Scene {len(panels) + 1}")`
(src/src/llm_handler.py:188-189). -/
def padPanelsFuel : Nat → List String → List String
  | 0, panels => panels
  | k + 1, panels => padPanelsFuel k (panels ++ ["Scene " ++ toString (panels.length + 1)])

/-- The padding loop of `LLMHandler._parse_panel_response`
(src/src/llm_handler.py:186-189): it appends `"Scene {len+1}"` exactly
`num_panels - len(panels)` times (and zero times when already long enough). -/
def padPanels (panels : List String) (num_panels : Nat) : List String :=
  padPanelsFuel (num_panels - panels.length) panels

/-- Embeds `LLMHandler._parse_panel_response` (src/src/llm_handler.py:163-191):
split the stripped response into lines, collect accepted descriptions in
encounter order, pad with `"Scene i"`, return `panels[:num_panels]`. -/
def parse_panel_response (response : String) (num_panels : Nat) : List String :=
  let lines := pySplitLines (pyStrip response)
  let panels := lines.filterMap parseLine
  (padPanels panels num_panels).take num_panels

/-- Embeds `LLMHandler._fallback_panel_generation` (src/src/llm_handler.py:193-219):
same word spans as `split_story_into_panels`, each panel rendered as
`f"Scene {i+1}: {panel_text[:30]}{'...' if len(panel_text) > 30 else ''}"`. -/
def fallback_panel_generation (story : String) (num_panels : Nat) : List String :=
  let words := pySplit story
  let wpp := words.length / num_panels
  (List.range num_panels).map fun i =>
    let panel_words := sliceList words (i * wpp)
      (if i < num_panels - 1 then i * wpp + wpp else words.length)
    let panel_text := joinSep " " panel_words
    "Scene " ++ toString (i + 1) ++ ": " ++ pyTruncate panel_text 30 ++
      (if 30 < panel_text.length then "..." else "")

/-- Embeds `LLMHandler.generate_panel_descriptions` (src/src/llm_handler.py:65-90).
The network is modelled by two oracle parameters: `service_available` is the
result of `is_service_available()`, and `api_response` is the result of
`_call_llm_api` (`none` for a `None` return or a raised exception, both of
which lead to the fallback, as does an empty — falsy — response string). -/
def generate_panel_descriptions (service_available : Bool) (api_response : Option String)
    (story : String) (num_panels : Nat) : List String :=
  if service_available = false then
    fallback_panel_generation story num_panels
  else
    match api_response with
    | some response =>
        if response ≠ "" then parse_panel_response response num_panels
        else fallback_panel_generation story num_panels
    | none => fallback_panel_generation story num_panels

/-! ## `src/image_generator.py`

PIL raster images are modelled by a record carrying the size, the list of
post-processing operations applied (`resize` via `Image.resize` with the
LANCZOS filter, `contrast12` via `ImageEnhance.Contrast(...).enhance(1.2)`),
whether the image is a generated placeholder, and — for compositor outputs —
the list of pixel positions at which the panels were pasted, in paste order. -/

/-- A post-processing operation applied to a PIL image. -/
inductive ImgOp where
  | resize (w h : Nat)
  | contrast12
deriving DecidableEq, Repr

/-- Abstract model of a PIL image. -/
structure PILImage where
  width : Nat
  height : Nat
  ops : List ImgOp
  placeholder : Bool
  pastes : List (Nat × Nat)
deriving DecidableEq, Repr

/-- A fresh image of the given size, as decoded from collaborator bytes. -/
def freshImage (w h : Nat) : PILImage :=
  ⟨w, h, [], false, []⟩

/-- The `style_enhancements` table of `ImageGenerator._enhance_prompt`
(src/src/image_generator.py:136-145), with the
`.get(style, style_enhancements["comic"])` default. -/
def style_enhancements (style : String) : String :=
  if style = "comic" then "comic book style, vibrant colors, bold outlines, clear composition"
  else if style = "realistic" then "photorealistic, detailed, natural lighting, high quality"
  else if style = "cartoon" then "cartoon style, simple shapes, bright colors, clean lines"
  else if style = "anime" then "anime style, expressive characters, detailed backgrounds, manga influence"
  else if style = "watercolor" then "watercolor painting style, soft colors, artistic"
  else if style = "sketch" then "pencil sketch style, black and white, artistic"
  else "comic book style, vibrant colors, bold outlines, clear composition"

/-- Embeds `ImageGenerator._enhance_prompt` (src/src/image_generator.py:125-151):
returns the pair `(f"{prompt}, {enhancement}", negative_prompt)`. -/
def enhance_prompt (prompt : String) (style : String) : String × String :=
  (prompt ++ ", " ++ style_enhancements style,
   "blurry, low quality, distorted, ugly, bad anatomy")

/-- Embeds `ImageGenerator._post_process_image` (src/src/image_generator.py:215-238):
resize to the hard-coded `target_size = (512, 512)` when the size differs,
then apply the contrast enhancement (factor 1.2) for the `"comic"` style. -/
def post_process_image (image : PILImage) (style : String) : PILImage :=
  let image :=
    if (image.width, image.height) ≠ (512, 512) then
      { image with width := 512, height := 512, ops := image.ops ++ [ImgOp.resize 512 512] }
    else image
  if style = "comic" then { image with ops := image.ops ++ [ImgOp.contrast12] }
  else image

/-- Embeds `ImageGenerator._create_placeholder_image` (src/src/image_generator.py:240-278):
a fresh `width × height` canvas with diagnostic text and a border. -/
def create_placeholder_image (prompt : String) (width height : Nat) : PILImage :=
  ⟨width, height, [], true, []⟩

/-- Embeds `ImageGenerator.generate_image` (src/src/image_generator.py:58-89).
`apiResult` is the oracle for `_call_image_api` followed by `Image.open`:
`some (w, h)` means the collaborator returned bytes decoding to a `w × h`
image; `none` means it returned `None` or an exception was caught — both
paths return `_create_placeholder_image(prompt, width, height)`. -/
def generate_image (apiResult : Option (Nat × Nat)) (prompt : String) (style : String)
    (width height : Nat) : PILImage :=
  match apiResult with
  | some (w, h) => post_process_image (freshImage w h) style
  | none => create_placeholder_image prompt width height

/-- Embeds `ImageGenerator.generate_comic_panels` (src/src/image_generator.py:91-123):
one `generate_image` call per description with prompt
`f"Comic panel {i+1}: {description}"` (default size 512 × 512); `api i` is the
collaborator oracle for panel `i`. -/
def generate_comic_panels (api : Nat → Option (Nat × Nat))
    (panel_descriptions : List String) (style : String) : List PILImage :=
  panel_descriptions.enum.map fun p =>
    generate_image (api p.1) ("Comic panel " ++ toString (p.1 + 1) ++ ": " ++ p.2) style 512 512

/-- Embeds `ImageGenerator.combine_panels_into_comic` (src/src/image_generator.py:280-337);
`LocalImageGenerator.combine_panels_into_comic`
(src/src/local_image_generator.py:269-326) is character-for-character the same
code.  Empty input returns the placeholder; otherwise the canvas takes
`images[0].size`, spacing 10, and the three layout branches compute the canvas
size and the paste position of each panel `i`. -/
def combine_panels_into_comic (images : List PILImage) (layout : String) : PILImage :=
  if images = [] then create_placeholder_image "No panels to combine" 512 512
  else
    let panel_width := (images.headD (freshImage 0 0)).width
    let panel_height := (images.headD (freshImage 0 0)).height
    let spacing := 10
    if layout = "horizontal" then
      { width := images.length * panel_width + (images.length - 1) * spacing
        height := panel_height
        ops := [], placeholder := false
        pastes := (List.range images.length).map fun i => (i * (panel_width + spacing), 0) }
    else if layout = "vertical" then
      { width := panel_width
        height := images.length * panel_height + (images.length - 1) * spacing
        ops := [], placeholder := false
        pastes := (List.range images.length).map fun i => (0, i * (panel_height + spacing)) }
    else
      let cols := 2
      let rows := (images.length + 1) / 2
      { width := cols * panel_width + (cols - 1) * spacing
        height := rows * panel_height + (rows - 1) * spacing
        ops := [], placeholder := false
        pastes := (List.range images.length).map fun i =>
          ((i % cols) * (panel_width + spacing), (i / cols) * (panel_height + spacing)) }

/-! ## General helper lemmas -/

theorem range_map_getElem? {α : Type} {f : Nat → α} {n i : Nat} (h : i < n) :
    ((List.range n).map f)[i]? = some (f i) := by
  rw [List.getElem?_map, List.getElem?_range h]
  rfl

theorem sliceList_length {α : Type} (xs : List α) (start stop : Nat) :
    (sliceList xs start stop).length = min stop xs.length - start := by
  simp [sliceList]

theorem str_length_pos_ne_empty {s : String} (h : 0 < s.length) : s ≠ "" := by
  intro e
  rw [e] at h
  simp at h

/-! ## Lemmas about the word spans -/

theorem split_story_spans_length {α : Type} (words : List α) (n : Nat) :
    (split_story_spans words n).length = n := by
  simp [split_story_spans]

theorem split_story_spans_getElem?_early {α : Type} {words : List α} {n i : Nat}
    (hi : i < n - 1) :
    (split_story_spans words n)[i]? =
      some (sliceList words (i * (words.length / n))
        (i * (words.length / n) + words.length / n)) := by
  have hin : i < n := by omega
  simp only [split_story_spans]
  rw [range_map_getElem? hin, if_pos hi]

theorem split_story_spans_getElem?_last {α : Type} {words : List α} {n : Nat} (hn : 1 ≤ n) :
    (split_story_spans words n)[n - 1]? =
      some (sliceList words ((n - 1) * (words.length / n)) words.length) := by
  have h : n - 1 < n := by omega
  simp only [split_story_spans]
  rw [range_map_getElem? h, if_neg (by omega)]

theorem n_mul_div_le (L n : Nat) : n * (L / n) ≤ L := by
  calc n * (L / n) = L / n * n := Nat.mul_comm ..
  _ ≤ L := Nat.div_mul_le_self L n

theorem split_story_spans_early_length {α : Type} {words : List α} {n i : Nat}
    (hi : i < n - 1) :
    ((split_story_spans words n)[i]?.getD []).length = words.length / n := by
  rw [split_story_spans_getElem?_early hi, Option.getD_some, sliceList_length]
  have h1 : i * (words.length / n) + words.length / n ≤ words.length := by
    have h2 : (i + 1) * (words.length / n) ≤ n * (words.length / n) :=
      Nat.mul_le_mul_right _ (by omega)
    have h3 := n_mul_div_le words.length n
    calc i * (words.length / n) + words.length / n
        = (i + 1) * (words.length / n) := by ring
      _ ≤ n * (words.length / n) := h2
      _ ≤ words.length := h3
  rw [Nat.min_eq_left h1]
  exact Nat.add_sub_cancel_left _ _

theorem split_story_spans_last_length {α : Type} {words : List α} {n : Nat} (hn : 1 ≤ n) :
    words.length / n ≤ ((split_story_spans words n)[n - 1]?.getD []).length := by
  rw [split_story_spans_getElem?_last hn, Option.getD_some, sliceList_length]
  have h1 : (n - 1) * (words.length / n) + words.length / n = n * (words.length / n) := by
    have : n - 1 + 1 = n := by omega
    calc (n - 1) * (words.length / n) + words.length / n
        = (n - 1 + 1) * (words.length / n) := by ring
      _ = n * (words.length / n) := by rw [this]
  have h2 := n_mul_div_le words.length n
  rw [Nat.min_self]
  omega

theorem chunk_flatten {α : Type} (words : List α) (w : Nat) (m : Nat) :
    (((List.range m).map fun i => sliceList words (i * w) (i * w + w)).flatten) =
      words.take (m * w) := by
  induction m with
  | zero => simp
  | succ k ih =>
    rw [List.range_succ, List.map_append, List.flatten_append, ih]
    simp only [List.map_cons, List.map_nil, List.flatten_cons, List.flatten_nil,
      List.append_nil]
    have h1 : words.take (k * w) = (words.take (k * w + w)).take (k * w) := by
      rw [List.take_take]
      congr 1
      omega
    rw [h1, sliceList, List.take_append_drop]
    congr 1
    ring

theorem split_story_spans_flatten {α : Type} (words : List α) {n : Nat} (hn : 1 ≤ n) :
    (split_story_spans words n).flatten = words := by
  obtain ⟨m, rfl⟩ : ∃ m, n = m + 1 := ⟨n - 1, by omega⟩
  simp only [split_story_spans]
  rw [List.range_succ, List.map_append, List.flatten_append]
  have hmap :
      ((List.range m).map fun i =>
        sliceList words (i * (words.length / (m + 1)))
          (if i < m + 1 - 1 then i * (words.length / (m + 1)) + words.length / (m + 1)
           else words.length)) =
      (List.range m).map fun i =>
        sliceList words (i * (words.length / (m + 1)))
          (i * (words.length / (m + 1)) + words.length / (m + 1)) := by
    apply List.map_congr_left
    intro a ha
    rw [if_pos (by simpa using List.mem_range.mp ha)]
  rw [hmap, chunk_flatten]
  simp only [List.map_cons, List.map_nil, List.flatten_cons, List.flatten_nil,
    List.append_nil]
  rw [if_neg (by omega)]
  have hlast : sliceList words (m * (words.length / (m + 1))) words.length =
      words.drop (m * (words.length / (m + 1))) := by
    rw [sliceList, List.take_length]
  rw [hlast, List.take_append_drop]

theorem split_story_into_panels_length (story : String) (n : Nat) :
    (split_story_into_panels story n).length = n := by
  simp [split_story_into_panels, split_story_spans]

theorem fallback_panel_generation_length (story : String) (n : Nat) :
    (fallback_panel_generation story n).length = n := by
  simp [fallback_panel_generation]

/-- C1. For every story whose whitespace-split word list is non-empty and
every `n ≥ 1`: the fallback splitter (both `utils.split_story_into_panels` and
`LLMHandler._fallback_panel_generation`) returns exactly `n` strings; each of
the first `n - 1` word spans has exactly `⌊len(words)/n⌋` words; the last span
has at least `⌊len(words)/n⌋` words; and the concatenation of the spans in
order is exactly the original word sequence — nothing duplicated or dropped. -/
theorem c1_fallback_splitter_partition (story : String) (n : Nat)
    (hn : 1 ≤ n) (_hw : pySplit story ≠ []) :
    (split_story_into_panels story n).length = n ∧
    (fallback_panel_generation story n).length = n ∧
    (∀ i, i < n - 1 →
      ((split_story_spans (pySplit story) n)[i]?.getD []).length =
        (pySplit story).length / n) ∧
    (pySplit story).length / n ≤
      ((split_story_spans (pySplit story) n)[n - 1]?.getD []).length ∧
    (split_story_spans (pySplit story) n).flatten = pySplit story := by
  refine ⟨split_story_into_panels_length story n,
    fallback_panel_generation_length story n,
    fun i hi => split_story_spans_early_length hi,
    split_story_spans_last_length hn,
    split_story_spans_flatten (pySplit story) hn⟩

/-- Witness for C1 at the concrete story `"one two three four five"` with
`n = 2`: panel word counts 2 and 3, spans flatten back to the word list. -/
theorem c1_fallback_splitter_partition_witness :
    (split_story_into_panels "one two three four five" 2).length = 2 ∧
    ((split_story_spans (pySplit "one two three four five") 2)[0]?.getD []).length = 2 ∧
    (split_story_spans (pySplit "one two three four five") 2).flatten =
      pySplit "one two three four five" := by
  have h := c1_fallback_splitter_partition "one two three four five" 2
    (by decide) (by decide)
  exact ⟨h.1, by rw [h.2.2.1 0 (by decide)]; decide, h.2.2.2.2⟩

/-- C10. When the story has fewer whitespace-split words than panels
(`words_per_panel = 0`), the splitter returns the empty string for each of the
first `n - 1` panels and puts the entire word sequence into the final panel;
the fallback labels of the LLM handler carry empty description text for the
leading panels.  Input validation indeed does not rule this out: the 12-char
single-word story `"Abracadabra!"` validates. -/
theorem c10_short_story_spans (story : String) (n : Nat)
    (hlt : (pySplit story).length < n) :
    (∀ i, i < n - 1 → (split_story_into_panels story n)[i]? = some "") ∧
    (split_story_spans (pySplit story) n)[n - 1]? = some (pySplit story) ∧
    (split_story_into_panels story n)[n - 1]? = some (joinSep " " (pySplit story)) ∧
    (∀ i, i < n - 1 →
      (fallback_panel_generation story n)[i]? =
        some ("Scene " ++ toString (i + 1) ++ ": ")) ∧
    validate_story_input "Abracadabra!" = (true, "") ∧
    (pySplit "Abracadabra!").length = 1 := by
  have hn : 1 ≤ n := by omega
  have hw : (pySplit story).length / n = 0 := Nat.div_eq_of_lt hlt
  have hlast : (split_story_spans (pySplit story) n)[n - 1]? = some (pySplit story) := by
    rw [split_story_spans_getElem?_last hn, hw]
    simp [sliceList]
  refine ⟨?_, hlast, ?_, ?_, by decide, by decide⟩
  · intro i hi
    simp only [split_story_into_panels]
    rw [List.getElem?_map, split_story_spans_getElem?_early hi, hw]
    simp [sliceList, joinSep]
  · simp only [split_story_into_panels]
    rw [List.getElem?_map, hlast]
    rfl
  · intro i hi
    have hin : i < n := by omega
    simp only [fallback_panel_generation]
    rw [range_map_getElem? hin]
    rw [hw]
    simp only [Nat.mul_zero, Nat.add_zero, if_pos hi]
    simp [sliceList, joinSep, pyTruncate, String.append_empty]

/-- Witness for C10 at the story `"a b"` (two words) with `n = 4`. -/
theorem c10_short_story_spans_witness :
    (split_story_into_panels "a b" 4)[0]? = some "" ∧
    (split_story_spans (pySplit "a b") 4)[3]? = some (pySplit "a b") ∧
    (fallback_panel_generation "a b" 4)[1]? = some "Scene 2: " := by
  have h := c10_short_story_spans "a b" 4 (by decide)
  refine ⟨h.1 0 (by decide), h.2.1, ?_⟩
  rw [h.2.2.2.1 1 (by decide)]
  decide

/-- C8, counterexample. The claim says every fallback panel ends in
`"..."` after the first 30 characters; but the code appends `"..."` only when
the joined text is longer than 30 characters.  For the story
`"hello world"` with `n = 1` the panel is `"Scene 1: hello world"` — without
the trailing `"..."` the claim predicts. -/
theorem c8_fallback_label_counterexample :
    fallback_panel_generation "hello world" 1 = ["Scene 1: hello world"] ∧
    ("Scene 1: hello world" : String) ≠ "Scene 1: hello world..." := by
  constructor
  · decide
  · decide

/-- C8, amended. Each fallback panel equals `"Scene i: "` followed by the
first 30 characters of that panel's joined words, followed by `"..."` exactly
when the joined text is longer than 30 characters (and by nothing
otherwise). -/
theorem c8_fallback_label_amended (story : String) (n : Nat) (_hn : 1 ≤ n)
    (i : Nat) (hi : i < n) :
    (fallback_panel_generation story n)[i]? =
      some ("Scene " ++ toString (i + 1) ++ ": " ++
        pyTruncate (joinSep " " ((split_story_spans (pySplit story) n)[i]?.getD [])) 30 ++
        (if 30 < (joinSep " " ((split_story_spans (pySplit story) n)[i]?.getD [])).length
          then "..." else "")) := by
  simp only [fallback_panel_generation, split_story_spans]
  simp only [range_map_getElem? hi, Option.getD_some]

/-- Witness for C8 (amended), one short panel and one long panel. -/
theorem c8_fallback_label_amended_witness :
    (fallback_panel_generation "hello world" 1)[0]? = some "Scene 1: hello world" ∧
    (fallback_panel_generation
        "The quick brown fox jumps over the lazy dog again and again today" 2)[1]? =
      some "Scene 2: the lazy dog again and again t..." := by
  constructor
  · rw [c8_fallback_label_amended "hello world" 1 (by decide) 0 (by decide)]
    decide
  · rw [c8_fallback_label_amended
      "The quick brown fox jumps over the lazy dog again and again today" 2
      (by decide) 1 (by decide)]
    decide

set_option maxRecDepth 20000

/-- C9, counterexample. The claim predicts the "too long" message for a
string of 1001 characters; but a 1001-character whitespace-only string takes
the first branch and yields `"Please enter a story or idea."` instead (the
stripped-emptiness and stripped-length checks run before the length check). -/
theorem c9_validate_counterexample :
    (String.mk (List.replicate 1001 ' ')).length = 1001 ∧
    validate_story_input (String.mk (List.replicate 1001 ' ')) =
      (false, "Please enter a story or idea.") ∧
    (((false, "Please enter a story or idea.") : Bool × String) ≠
      (false, "Story is too long. Please keep it under 1000 characters.")) := by
  refine ⟨by decide, by decide, by decide⟩

/-- C9, amended. `validate_story_input` checks in order: empty or
whitespace-only input yields `"Please enter a story or idea."`; any other
input with stripped length below 10 yields the "at least 10 characters"
message; stripped length at least 10 with raw length above 1000 yields the
"too long" message (in particular for `"A" * 1001`); and stripped length at
least 10 with raw length at most 1000 is valid, e.g.
`"A cat discovers a magical garden."`. -/
theorem c9_validate_amended :
    validate_story_input "" = (false, "Please enter a story or idea.") ∧
    (∀ s, pyStrip s = "" →
      validate_story_input s = (false, "Please enter a story or idea.")) ∧
    (∀ s, pyStrip s ≠ "" → (pyStrip s).length < 10 →
      validate_story_input s = (false, "Story must be at least 10 characters long.")) ∧
    (∀ s, 10 ≤ (pyStrip s).length → 1000 < s.length →
      validate_story_input s =
        (false, "Story is too long. Please keep it under 1000 characters.")) ∧
    (∀ s, 10 ≤ (pyStrip s).length → s.length ≤ 1000 →
      validate_story_input s = (true, "")) ∧
    validate_story_input "A cat discovers a magical garden." = (true, "") := by
  refine ⟨by decide, ?_, ?_, ?_, ?_, by decide⟩
  · intro s hs
    simp [validate_story_input, hs]
  · intro s hs h10
    have hse : s ≠ "" := by
      intro e
      apply hs
      rw [e]
      rfl
    simp [validate_story_input, hse, hs, h10]
  · intro s h10 hlen
    have hs : pyStrip s ≠ "" := str_length_pos_ne_empty (by omega)
    have hse : s ≠ "" := by
      intro e
      rw [e] at h10
      exact absurd h10 (by decide)
    simp [validate_story_input, hse, hs, hlen]
    omega
  · intro s h10 hlen
    have hs : pyStrip s ≠ "" := str_length_pos_ne_empty (by omega)
    have hse : s ≠ "" := by
      intro e
      rw [e] at h10
      exact absurd h10 (by decide)
    unfold validate_story_input
    rw [if_neg (by simp [hse, hs]), if_neg (by omega), if_neg (by omega)]

/-- Witness for C9 (amended): the spec's `"A" * 1001` is rejected as too long,
and a fresh valid story is accepted. -/
theorem c9_validate_amended_witness :
    validate_story_input (String.mk (List.replicate 1001 'A')) =
      (false, "Story is too long. Please keep it under 1000 characters.") ∧
    validate_story_input "Twelve characters here" = (true, "") :=
  ⟨c9_validate_amended.2.2.2.1 _ (by decide) (by decide),
   c9_validate_amended.2.2.2.2.1 _ (by decide) (by decide)⟩

/-! ## Lemmas about the padding loop and the response parser -/

theorem padPanelsFuel_length (k : Nat) :
    ∀ p : List String, (padPanelsFuel k p).length = p.length + k := by
  induction k with
  | zero => intro p; rfl
  | succ k ih =>
    intro p
    rw [padPanelsFuel, ih]
    simp
    omega

theorem padPanelsFuel_getElem?_lt (k : Nat) :
    ∀ (p : List String) (i : Nat), i < p.length → (padPanelsFuel k p)[i]? = p[i]? := by
  induction k with
  | zero => intro p i _; rfl
  | succ k ih =>
    intro p i hi
    rw [padPanelsFuel, ih _ i (by simp; omega)]
    rw [List.getElem?_append, if_pos hi]

theorem padPanelsFuel_getElem?_ge (k : Nat) :
    ∀ (p : List String) (i : Nat), p.length ≤ i → i < p.length + k →
      (padPanelsFuel k p)[i]? = some ("Scene " ++ toString (i + 1)) := by
  induction k with
  | zero => intro p i h1 h2; omega
  | succ k ih =>
    intro p i h1 h2
    rw [padPanelsFuel]
    rcases Nat.lt_or_ge i (p.length + 1) with h | h
    · have hi : i = p.length := by omega
      subst hi
      rw [padPanelsFuel_getElem?_lt k _ _ (by simp)]
      rw [List.getElem?_concat_length]
    · rw [ih _ i (by simp; omega) (by simp; omega)]

theorem padPanels_length (p : List String) (n : Nat) :
    (padPanels p n).length = max p.length n := by
  rw [padPanels, padPanelsFuel_length]
  omega

/-- Faithfulness of `padPanels` to the `while` loop of
`_parse_panel_response`: it satisfies the loop's step equation. -/
theorem padPanels_loop_step (p : List String) (n : Nat) :
    padPanels p n =
      if p.length < n then padPanels (p ++ ["Scene " ++ toString (p.length + 1)]) n
      else p := by
  by_cases h : p.length < n
  · rw [if_pos h, padPanels, padPanels]
    have e : n - p.length = n - (p ++ ["Scene " ++ toString (p.length + 1)]).length + 1 := by
      simp
      omega
    rw [e, padPanelsFuel]
  · rw [if_neg h, padPanels]
    have e : n - p.length = 0 := by omega
    rw [e]
    rfl

theorem parse_panel_response_length (r : String) (n : Nat) :
    (parse_panel_response r n).length = n := by
  simp only [parse_panel_response]
  rw [List.length_take, padPanels_length]
  omega

theorem parseLine_accepts_only (line d : String) (h : parseLine line = some d) :
    listStartsWith (pyStrip line).data "Panel".data = true ∧
    (pyStrip line).data.contains ':' = true := by
  by_cases hc : listStartsWith (pyStrip line).data "Panel".data ∧
      (pyStrip line).data.contains ':'
  · exact ⟨hc.1, hc.2⟩
  · exfalso
    simp only [parseLine] at h
    rw [if_neg hc] at h
    exact Option.noConfusion h

/-- C4. `_parse_panel_response` returns exactly `n` descriptions for every
response and every `n`: a line is accepted only if (after stripping) it starts
with `"Panel"` and contains a colon; accepted descriptions appear in encounter
order (the result agrees with the filtered line list on every shared index, so
no re-sorting by label); missing slots are padded with `"Scene i"`; and when
more than `n` lines parse the list is truncated to the first `n`. -/
theorem c4_parse_panel_response_contract (response : String) (n : Nat) :
    (parse_panel_response response n).length = n ∧
    (∀ line d, parseLine line = some d →
      listStartsWith (pyStrip line).data "Panel".data = true ∧
      (pyStrip line).data.contains ':' = true) ∧
    (∀ i, i < ((pySplitLines (pyStrip response)).filterMap parseLine).length → i < n →
      (parse_panel_response response n)[i]? =
        ((pySplitLines (pyStrip response)).filterMap parseLine)[i]?) ∧
    (∀ i, ((pySplitLines (pyStrip response)).filterMap parseLine).length ≤ i → i < n →
      (parse_panel_response response n)[i]? = some ("Scene " ++ toString (i + 1))) ∧
    (n ≤ ((pySplitLines (pyStrip response)).filterMap parseLine).length →
      parse_panel_response response n =
        ((pySplitLines (pyStrip response)).filterMap parseLine).take n) := by
  refine ⟨parse_panel_response_length response n, parseLine_accepts_only, ?_, ?_, ?_⟩
  · intro i hi hin
    simp only [parse_panel_response]
    rw [List.getElem?_take, if_pos hin, padPanels, padPanelsFuel_getElem?_lt _ _ _ hi]
  · intro i h1 h2
    simp only [parse_panel_response]
    rw [List.getElem?_take, if_pos h2, padPanels,
      padPanelsFuel_getElem?_ge _ _ _ h1 (by omega)]
  · intro hn
    simp only [parse_panel_response]
    rw [padPanels]
    have e : n - ((pySplitLines (pyStrip response)).filterMap parseLine).length = 0 := by
      omega
    rw [e]
    rfl

/-- Witness for C4: out-of-order labels are kept in encounter order (no
re-sorting), short responses are padded with `"Scene i"`, long responses are
truncated to the first `n`. -/
theorem c4_parse_panel_response_contract_witness :
    (parse_panel_response "Panel 2: b\nPanel 1: a" 3)[0]? = some "b" ∧
    (parse_panel_response "Panel 2: b\nPanel 1: a" 3)[1]? = some "a" ∧
    (parse_panel_response "Panel 2: b\nPanel 1: a" 3)[2]? = some "Scene 3" ∧
    parse_panel_response "Panel 1: a\nPanel 2: b\nPanel 3: c" 2 = ["a", "b"] := by
  have h := c4_parse_panel_response_contract "Panel 2: b\nPanel 1: a" 3
  have h2 := c4_parse_panel_response_contract "Panel 1: a\nPanel 2: b\nPanel 3: c" 2
  refine ⟨?_, ?_, ?_, ?_⟩
  · rw [h.2.2.1 0 (by decide) (by decide)]
    decide
  · rw [h.2.2.1 1 (by decide) (by decide)]
    decide
  · rw [h.2.2.2.1 2 (by decide) (by decide)]
    decide
  · rw [h2.2.2.2.2 (by decide)]
    decide

theorem generate_panel_descriptions_length (service_available : Bool)
    (api_response : Option String) (story : String) (n : Nat) :
    (generate_panel_descriptions service_available api_response story n).length = n := by
  rw [generate_panel_descriptions.eq_def]
  by_cases h : service_available = false
  · rw [if_pos h]
    exact fallback_panel_generation_length story n
  · rw [if_neg h]
    cases api_response with
    | none => exact fallback_panel_generation_length story n
    | some r =>
      show (if r ≠ "" then parse_panel_response r n
        else fallback_panel_generation story n).length = n
      by_cases hr : r ≠ ""
      · rw [if_pos hr]
        exact parse_panel_response_length r n
      · rw [if_neg hr]
        exact fallback_panel_generation_length story n

/-- C5. For every run with requested panel count `n ≥ 1` — any service
availability, any collaborator response (language-model path, fallback path,
or the empty/failed response), and any image-collaborator behaviour — the
descriptions list has length exactly `n` and `generate_comic_panels` produces
exactly one image per description, so
`len(PanelDescriptions) = len(PanelImages) = n`. -/
theorem c5_counts_invariant (service_available : Bool) (api_response : Option String)
    (story : String) (n : Nat) (api : Nat → Option (Nat × Nat)) (style : String)
    (_hn : 1 ≤ n) :
    (generate_panel_descriptions service_available api_response story n).length = n ∧
    (generate_comic_panels api
      (generate_panel_descriptions service_available api_response story n) style).length
        = n := by
  have hdesc := generate_panel_descriptions_length service_available api_response story n
  refine ⟨hdesc, ?_⟩
  simp only [generate_comic_panels, List.length_map, List.enum_length, hdesc]

/-- Witness for C5: the fallback path with a failing image collaborator at
`n = 3` still yields 3 descriptions and 3 images. -/
theorem c5_counts_invariant_witness :
    (generate_panel_descriptions false none "The cat sat on the mat" 3).length = 3 ∧
    (generate_comic_panels (fun _ => none)
      (generate_panel_descriptions false none "The cat sat on the mat" 3) "comic").length
        = 3 :=
  c5_counts_invariant false none "The cat sat on the mat" 3 (fun _ => none) "comic"
    (by decide)

/-- C6. The prompt-enhancement step produces exactly the description,
`", "`, and the style's fixed phrase; any style tag outside the six-entry
table (and so any absent tag) is mapped to the `"comic"` phrase; and
`create_image_prompt("A cat in a garden", "anime")` contains both the original
text and the anime-specific enhancement phrase. -/
theorem c6_prompt_enhancement (description style : String) :
    (enhance_prompt description style).1 =
      description ++ ", " ++ style_enhancements style ∧
    (style ∉ (["comic", "realistic", "cartoon", "anime", "watercolor", "sketch"] :
        List String) →
      style_enhancements style = style_enhancements "comic") ∧
    strContains (create_image_prompt "A cat in a garden" "anime") "A cat in a garden"
      = true ∧
    strContains (create_image_prompt "A cat in a garden" "anime")
      "anime style, expressive characters, detailed backgrounds" = true := by
  refine ⟨rfl, ?_, by decide, by decide⟩
  intro hmem
  simp only [List.mem_cons, List.not_mem_nil, or_false, not_or] at hmem
  obtain ⟨h1, h2, h3, h4, h5, h6⟩ := hmem
  unfold style_enhancements
  rw [if_neg h1, if_neg h2, if_neg h3, if_neg h4, if_neg h5, if_neg h6]
  decide

/-- Witness for C6 at the out-of-table style `"oil"`. -/
theorem c6_prompt_enhancement_witness :
    (enhance_prompt "A knight" "oil").1 = "A knight" ++ ", " ++ style_enhancements "oil" ∧
    style_enhancements "oil" = style_enhancements "comic" :=
  ⟨(c6_prompt_enhancement "A knight" "oil").1,
   (c6_prompt_enhancement "A knight" "oil").2.1 (by decide)⟩

/-- C7. For the empty input list the compositor returns the single
placeholder image, whatever the layout tag; totality of the embedded function
models "never raises". -/
theorem c7_empty_input_placeholder (layout : String) :
    combine_panels_into_comic [] layout =
      create_placeholder_image "No panels to combine" 512 512 ∧
    (combine_panels_into_comic [] layout).placeholder = true := by
  constructor
  · simp [combine_panels_into_comic]
  · simp [combine_panels_into_comic, create_placeholder_image]

/-- C3. For every non-empty list of images sharing one width `w` and
height `h`: the row (`"horizontal"`) layout yields a canvas of size
`(n*w + (n-1)*10, h)` with panel `i` pasted at `(i*(w+10), 0)`; the grid
layout uses 2 columns with `rows = ⌈n/2⌉ = (n+1)/2`, a canvas of size
`(2*w+10, rows*h + (rows-1)*10)`, and panel `i` pasted at
`((i mod 2)*(w+10), (i div 2)*(h+10))`. -/
theorem c3_compositor_layouts (images : List PILImage) (w h : Nat)
    (hne : images ≠ [])
    (hall : ∀ img ∈ images, img.width = w ∧ img.height = h) :
    ((combine_panels_into_comic images "horizontal").width =
        images.length * w + (images.length - 1) * 10 ∧
      (combine_panels_into_comic images "horizontal").height = h ∧
      (∀ i, i < images.length →
        (combine_panels_into_comic images "horizontal").pastes[i]? =
          some (i * (w + 10), 0))) ∧
    ((combine_panels_into_comic images "grid").width = 2 * w + 10 ∧
      (combine_panels_into_comic images "grid").height =
        ((images.length + 1) / 2) * h + (((images.length + 1) / 2) - 1) * 10 ∧
      (∀ i, i < images.length →
        (combine_panels_into_comic images "grid").pastes[i]? =
          some ((i % 2) * (w + 10), (i / 2) * (h + 10)))) := by
  obtain ⟨x, xs, rfl⟩ : ∃ y ys, images = y :: ys := by
    cases images with
    | nil => exact absurd rfl hne
    | cons y ys => exact ⟨y, ys, rfl⟩
  obtain ⟨hxw, hxh⟩ := hall x (List.mem_cons_self x xs)
  have hrow : combine_panels_into_comic (x :: xs) "horizontal" =
      { width := (x :: xs).length * w + ((x :: xs).length - 1) * 10
        height := h
        ops := [], placeholder := false
        pastes := (List.range (x :: xs).length).map fun i => (i * (w + 10), 0) } := by
    simp [combine_panels_into_comic, hxw, hxh]
  have hgrid : combine_panels_into_comic (x :: xs) "grid" =
      { width := 2 * w + 10
        height := ((x :: xs).length + 1) / 2 * h + (((x :: xs).length + 1) / 2 - 1) * 10
        ops := [], placeholder := false
        pastes := (List.range (x :: xs).length).map fun i =>
          (i % 2 * (w + 10), i / 2 * (h + 10)) } := by
    simp [combine_panels_into_comic, hxw, hxh]
  constructor
  · refine ⟨?_, ?_, ?_⟩
    · rw [hrow]
    · rw [hrow]
    · intro i hi
      rw [hrow]
      exact range_map_getElem? hi
  · refine ⟨?_, ?_, ?_⟩
    · rw [hgrid]
    · rw [hgrid]
    · intro i hi
      rw [hgrid]
      exact range_map_getElem? hi

/-- Witness for C3, the spec's two concrete cases: 3 images of 100 × 100 give
a 320 × 100 row canvas with panel 2 at x = 220; 5 images of 100 × 100 give a
3-row grid with canvas 210 × 320 and image 4 at (0, 220). -/
theorem c3_compositor_layouts_witness :
    (combine_panels_into_comic
      [freshImage 100 100, freshImage 100 100, freshImage 100 100] "horizontal").width
        = 320 ∧
    (combine_panels_into_comic
      [freshImage 100 100, freshImage 100 100, freshImage 100 100] "horizontal").height
        = 100 ∧
    (combine_panels_into_comic
      [freshImage 100 100, freshImage 100 100, freshImage 100 100] "horizontal").pastes[2]?
        = some (220, 0) ∧
    ([freshImage 100 100, freshImage 100 100, freshImage 100 100, freshImage 100 100,
        freshImage 100 100].length + 1) / 2 = 3 ∧
    (combine_panels_into_comic [freshImage 100 100, freshImage 100 100, freshImage 100 100,
        freshImage 100 100, freshImage 100 100] "grid").width = 210 ∧
    (combine_panels_into_comic [freshImage 100 100, freshImage 100 100, freshImage 100 100,
        freshImage 100 100, freshImage 100 100] "grid").height = 320 ∧
    (combine_panels_into_comic [freshImage 100 100, freshImage 100 100, freshImage 100 100,
        freshImage 100 100, freshImage 100 100] "grid").pastes[4]? = some (0, 220) := by
  have h3 := c3_compositor_layouts
    [freshImage 100 100, freshImage 100 100, freshImage 100 100] 100 100
    (by decide) (by decide)
  have h5 := c3_compositor_layouts [freshImage 100 100, freshImage 100 100,
    freshImage 100 100, freshImage 100 100, freshImage 100 100] 100 100
    (by decide) (by decide)
  refine ⟨?_, ?_, ?_, by decide, ?_, ?_, ?_⟩
  · rw [h3.1.1]
    decide
  · rw [h3.1.2.1]
  · rw [h3.1.2.2 2 (by decide)]
  · rw [h5.2.1]
  · rw [h5.2.2.1]
    decide
  · rw [h5.2.2.2 4 (by decide)]

/-- C2, counterexample. The claim says `generate_image` always returns an
image of the requested `(width, height)` and resizes a differing collaborator
image to the requested size.  But `_post_process_image` resizes to the
hard-coded `target_size = (512, 512)`: requesting 256 × 256 with a 640 × 480
collaborator image yields a 512 × 512 result, not 256 × 256. -/
theorem c2_generate_image_counterexample :
    (generate_image (some (640, 480)) "a castle" "comic" 256 256).width = 512 ∧
    (generate_image (some (640, 480)) "a castle" "comic" 256 256).height = 512 ∧
    ((512, 512) ≠ ((256, 256) : Nat × Nat)) := by
  refine ⟨by decide, by decide, by decide⟩

/-- C2, amended. `generate_image` never raises (modelled by totality).
When the collaborator fails (`None` or a caught exception) it returns a
placeholder of exactly the requested `(width, height)`.  When the collaborator
returns an image, the result has the fixed post-processing size 512 × 512
regardless of the requested dimensions, with a LANCZOS resize recorded exactly
when the collaborator image's size differs from (512, 512); the contrast boost
of factor 1.2 is recorded iff the style is `"comic"` and the collaborator
succeeded. -/
theorem c2_generate_image_amended (apiResult : Option (Nat × Nat))
    (prompt style : String) (width height : Nat) :
    (apiResult = none →
      generate_image apiResult prompt style width height =
        create_placeholder_image prompt width height ∧
      (generate_image apiResult prompt style width height).width = width ∧
      (generate_image apiResult prompt style width height).height = height) ∧
    (∀ w h, apiResult = some (w, h) →
      (generate_image apiResult prompt style width height).width = 512 ∧
      (generate_image apiResult prompt style width height).height = 512 ∧
      ((w, h) ≠ ((512, 512) : Nat × Nat) →
        ImgOp.resize 512 512 ∈ (generate_image apiResult prompt style width height).ops) ∧
      ((w, h) = ((512, 512) : Nat × Nat) →
        ImgOp.resize 512 512 ∉ (generate_image apiResult prompt style width height).ops)) ∧
    (ImgOp.contrast12 ∈ (generate_image apiResult prompt style width height).ops ↔
      style = "comic" ∧ apiResult ≠ none) := by
  cases apiResult with
  | none =>
    refine ⟨fun _ => ⟨rfl, rfl, rfl⟩, fun w h hx => absurd hx (by simp), ?_⟩
    simp [generate_image, create_placeholder_image]
  | some wh =>
    obtain ⟨w0, h0⟩ := wh
    refine ⟨fun hx => absurd hx (by simp), fun w h hx => ?_, ?_⟩
    · rw [Option.some_inj, Prod.mk.injEq] at hx
      obtain ⟨rfl, rfl⟩ := hx
      by_cases hsz : (w0, h0) = ((512, 512) : Nat × Nat)
      · rw [Prod.mk.injEq] at hsz
        obtain ⟨rfl, rfl⟩ := hsz
        by_cases hstyle : style = "comic" <;>
          simp [generate_image, post_process_image, freshImage, hstyle]
      · by_cases hstyle : style = "comic" <;>
          simp [generate_image, post_process_image, freshImage, hsz, hstyle]
    · by_cases hsz : (w0, h0) = ((512, 512) : Nat × Nat)
      · rw [Prod.mk.injEq] at hsz
        obtain ⟨rfl, rfl⟩ := hsz
        by_cases hstyle : style = "comic" <;>
          simp [generate_image, post_process_image, freshImage, hstyle]
      · by_cases hstyle : style = "comic" <;>
          simp [generate_image, post_process_image, freshImage, hsz, hstyle]

/-- Witness for C2 (amended): failure path keeps the requested size, success
path is forced to 512 × 512, contrast is applied for the comic style. -/
theorem c2_generate_image_amended_witness :
    generate_image none "a castle" "anime" 300 200 =
      create_placeholder_image "a castle" 300 200 ∧
    (generate_image (some (640, 480)) "a castle" "anime" 300 200).width = 512 ∧
    ImgOp.contrast12 ∈ (generate_image (some (640, 480)) "a castle" "comic" 300 200).ops := by
  refine ⟨((c2_generate_image_amended none "a castle" "anime" 300 200).1 rfl).1, ?_, ?_⟩
  · exact ((c2_generate_image_amended (some (640, 480)) "a castle" "anime" 300 200).2.1
      640 480 rfl).1
  · exact (c2_generate_image_amended (some (640, 480)) "a castle" "comic" 300 200).2.2.mpr
      ⟨rfl, by simp⟩

end ComicAI
